import Mathlib

/-!
Shallow embedding of the BJC ROI dashboard core (src/core/macro_model.py,
src/core/metrics.py, src/core/utils.py). Monetary quantities and rates are
modelled as rationals; pandas tables become Lean lists of rows.
-/

namespace BJC

/-- Embeds safe_div from src/core/macro_model.py line 5 (textually identical
to safe_div in src/core/utils.py line 126): a / b when b is nonzero, else 0. -/
def safe_div (a b : ℚ) : ℚ := if b = 0 then 0 else a / b

/-- Embeds the MacroInputs dataclass of src/core/macro_model.py lines 8-21.
Field defaults in the source play no role here since every theorem
quantifies over fully constructed records. -/
structure MacroInputs where
  total_raised_y1 : ℚ
  base_cost_y1 : ℚ
  retention : ℚ
  revenue_method : String
  revenue_shock : ℚ
  margin : ℚ
  cost_growth : ℚ
  cost_shock : ℚ
  acquisition_cost_year1_only : Bool
deriving DecidableEq

/-- Whitespace test for the model of Python str.strip (ASCII whitespace,
which covers every method string the dashboard can pass). -/
def isSpaceChar (c : Char) : Bool :=
  c = ' ' || c = '\t' || c = '\n' || c = '\r' || c = '\x0b' || c = '\x0c'

/-- Models Python str.strip on the character list of a string: drop leading
and trailing whitespace. -/
def stripChars (l : List Char) : List Char :=
  ((l.dropWhile isSpaceChar).reverse.dropWhile isSpaceChar).reverse

/-- Embeds the normalization (method or "prior").strip().lower() of
src/core/macro_model.py line 31. The Python falsy-or on a string is an
empty-string test; strip and lower are modelled structurally over the
character list so that the kernel can evaluate them. -/
def normalizeMethod (method : String) : String :=
  ⟨(stripChars (if method = "" then "prior" else method).data).map Char.toLower⟩

/-- Embeds build_revenue_series, src/core/macro_model.py lines 23-47. -/
def build_revenue_series (total_raised_y1 retention : ℚ) (method : String)
    (revenue_shock : ℚ) : List ℚ :=
  let y1 := total_raised_y1
  let m := normalizeMethod method
  let yy :=
    if m = "remaining" then
      let remaining := max (y1 - y1) 0
      let y2 := retention * remaining
      let remaining2 := max (remaining - y2) 0
      let y3 := retention * remaining2
      (y2, y3)
    else
      let y2 := retention * y1
      let y3 := retention * y2
      (y2, y3)
  let y2 := yy.1 * (1 + revenue_shock)
  let y3 := yy.2 * (1 + revenue_shock)
  [y1, y2, y3]

/-- Embeds build_cost_series, src/core/macro_model.py lines 49-90. Year 1 is
base times (1 + margin); later years depend on the year1-only flag; the cost
shock is then applied to years 2 and 3 only (source comment: Apply cost shock
to ongoing years only). -/
def build_cost_series (base_cost_y1 margin cost_growth cost_shock : ℚ)
    (acquisition_cost_year1_only : Bool) : List ℚ :=
  let y1 := base_cost_y1 * (1 + margin)
  let yy :=
    if acquisition_cost_year1_only then
      let stewardship_base := base_cost_y1 * margin
      let y2 := stewardship_base * (1 + cost_growth)
      let y3 := stewardship_base * (1 + cost_growth) ^ 2
      (y2, y3)
    else
      let y2 := y1 * (1 + cost_growth)
      let y3 := y2 * (1 + cost_growth)
      (y2, y3)
  let y2 := yy.1 * (1 + cost_shock)
  let y3 := yy.2 * (1 + cost_shock)
  [y1, y2, y3]

/-- One row of the forecast DataFrame assembled in build_macro_forecast,
src/core/macro_model.py lines 110-115: Year, Revenue, Cost, Net,
ROI Multiple, ROI percent. -/
structure ForecastRow where
  year : String
  revenue : ℚ
  cost : ℚ
  net : ℚ
  roiMultiple : ℚ
  roiPct : ℚ
deriving DecidableEq

/-- Embeds the years list of src/core/macro_model.py line 93. -/
def macroYears : List String := ["Year 1", "Year 2", "Year 3"]

/-- Embeds the DataFrame assembly of src/core/macro_model.py lines 95-115:
zip the year labels with the revenue and cost series and derive Net,
ROI Multiple (zero-guarded) and ROI percent per row. -/
def forecastRows (inputs : MacroInputs) : List ForecastRow :=
  let revenue := build_revenue_series inputs.total_raised_y1 inputs.retention
    inputs.revenue_method inputs.revenue_shock
  let cost := build_cost_series inputs.base_cost_y1 inputs.margin
    inputs.cost_growth inputs.cost_shock inputs.acquisition_cost_year1_only
  (macroYears.zip (revenue.zip cost)).map fun yc =>
    { year := yc.1
      revenue := yc.2.1
      cost := yc.2.2
      net := yc.2.1 - yc.2.2
      roiMultiple := safe_div yc.2.1 yc.2.2
      roiPct := safe_div yc.2.1 yc.2.2 - 1 }

/-- Embeds the kpis dict of src/core/macro_model.py lines 117-130. -/
structure Kpis where
  totalRevenue : ℚ
  totalCost : ℚ
  totalNet : ℚ
  roiMultiple : ℚ
  roiPct : ℚ
  costPerDollar : ℚ
deriving DecidableEq

/-- Embeds src/core/macro_model.py lines 117-130: column sums of the forecast
table and the zero-guarded 3-year ratios. -/
def kpisOf (rows : List ForecastRow) : Kpis :=
  let totalRev := (rows.map (·.revenue)).sum
  let totalCost := (rows.map (·.cost)).sum
  let totalNet := (rows.map (·.net)).sum
  { totalRevenue := totalRev
    totalCost := totalCost
    totalNet := totalNet
    roiMultiple := safe_div totalRev totalCost
    roiPct := safe_div totalRev totalCost - 1
    costPerDollar := safe_div totalCost totalRev }

/-- One row of the optional budget table, with its columns already resolved
to the canonical names Year, Budget Revenue, Budget Cost. The alias
resolution of src/core/macro_model.py lines 136-146 is string matching on
column labels performed before the merge; when it fails the source leaves
budget_out as None. The claims treated here all presuppose resolvable
columns, so the embedding starts from the resolved table. -/
structure BudgetRow where
  year : String
  budgetRevenue : ℚ
  budgetCost : ℚ
deriving DecidableEq

/-- One row of the merged budget-comparison table built at
src/core/macro_model.py lines 148-154. -/
structure BudgetCompareRow where
  year : String
  budgetRevenue : ℚ
  budgetCost : ℚ
  revenue : ℚ
  cost : ℚ
  net : ℚ
  budgetNet : ℚ
  revenueVar : ℚ
  costVar : ℚ
  netVar : ℚ
deriving DecidableEq

/-- Builds one merged row from a budget row and the forecast values joined to
it (src/core/macro_model.py lines 149-153). -/
def budgetCompareRow (br : BudgetRow) (rev cost net : ℚ) : BudgetCompareRow :=
  let budgetNet := br.budgetRevenue - br.budgetCost
  { year := br.year
    budgetRevenue := br.budgetRevenue
    budgetCost := br.budgetCost
    revenue := rev
    cost := cost
    net := net
    budgetNet := budgetNet
    revenueVar := rev - br.budgetRevenue
    costVar := cost - br.budgetCost
    netVar := net - budgetNet }

/-- Embeds the left merge of src/core/macro_model.py line 148:
pd.merge(b, df, on Year, how left).fillna(0). Every budget row is kept; a
budget row matching no forecast year gets 0 for Revenue, Cost and Net. -/
def budgetCompare (b : List BudgetRow) (rows : List ForecastRow) :
    List BudgetCompareRow :=
  b.flatMap fun br =>
    let ms := rows.filter fun fr => fr.year == br.year
    if ms = [] then [budgetCompareRow br 0 0 0]
    else ms.map fun fr => budgetCompareRow br fr.revenue fr.cost fr.net

/-- Recommendation text of src/core/macro_model.py line 159. -/
def recBelowBreakeven : String :=
  "Overall ROI is below 1.0x (costs exceed returns). Re-check retention, reduce acquisition cost, or focus more on high-yield donor segments."

/-- Recommendation text of src/core/macro_model.py line 161. -/
def recModerate : String :=
  "ROI is positive but moderate. Improving retention and controlling ongoing stewardship cost would materially improve net resources."

/-- Recommendation text of src/core/macro_model.py line 163. -/
def recStrong : String :=
  "ROI is strong. Consider scaling the strategies producing the highest retained revenue while monitoring cost growth assumptions."

/-- Recommendation text of src/core/macro_model.py line 166; the quote marks
of the source string are elided, which no claim depends on. -/
def recRemainingNote : String :=
  "Revenue Method is set to remaining. If Year 2 and Year 3 show $0, switch to prior to model 60% of prior-year retained revenue."

/-- Embeds the recommendation block of src/core/macro_model.py lines 156-166:
an if/elif/else ladder on the 3-year ROI multiple, then a note appended when
revenue_method equals the literal string remaining (unnormalized, as in the
source). -/
def recommendationsOf (inputs : MacroInputs) (k : Kpis) : List String :=
  let recs : List String :=
    if k.roiMultiple < 1 then [recBelowBreakeven]
    else if k.roiMultiple < 2 then [recModerate]
    else [recStrong]
  if inputs.revenue_method = "remaining" then recs ++ [recRemainingNote]
  else recs

/-- The dict returned by build_macro_forecast, src/core/macro_model.py
lines 168-173. -/
structure MacroForecast where
  forecast : List ForecastRow
  kpis : Kpis
  budget : Option (List BudgetCompareRow)
  recommendations : List String
deriving DecidableEq

/-- Embeds build_macro_forecast, src/core/macro_model.py lines 92-173. The
budget argument is None or an already column-resolved table; the source skips
the merge when the table is None or empty. -/
def build_macro_forecast (inputs : MacroInputs)
    (budget : Option (List BudgetRow)) : MacroForecast :=
  let rows := forecastRows inputs
  let k := kpisOf rows
  let budget_out : Option (List BudgetCompareRow) :=
    match budget with
    | none => none
    | some b => if b = [] then none else some (budgetCompare b rows)
  { forecast := rows
    kpis := k
    budget := budget_out
    recommendations := recommendationsOf inputs k }

/-- One output row of compute_rollups, src/core/metrics.py lines 27-34. -/
structure RollupRow where
  key : String
  raised : ℚ
  costs : ℚ
  net : ℚ
  roi : ℚ
  cost_to_raise_1 : ℚ
deriving DecidableEq

/-- Sum of the amounts carried by the rows of a grouped column whose group
key equals k; embeds the groupby-sum of src/core/metrics.py lines 28-29.
A key absent from the table sums to 0, matching the fillna(0) after the
outer concat at line 30. -/
def sumBy (rows : List (String × ℚ)) (k : String) : ℚ :=
  ((rows.filter fun r => r.1 == k).map fun r => r.2).sum

/-- Embeds compute_rollups, src/core/metrics.py lines 27-34. A table is a
list of (dimension value, amount) pairs: only the grouping column and the
summed column matter to the computation. The outer join of line 30 makes the
key set the union of the two key sets; per-group net, roi and
cost_to_raise_1 follow lines 31-33 with their zero guards. -/
def compute_rollups (donations costs : List (String × ℚ)) : List RollupRow :=
  let keys := ((donations.map Prod.fst) ++ (costs.map Prod.fst)).dedup
  keys.map fun k =>
    let raised := sumBy donations k
    let cs := sumBy costs k
    let net := raised - cs
    { key := k
      raised := raised
      costs := cs
      net := net
      roi := if cs > 0 then net / cs else 0
      cost_to_raise_1 := if raised > 0 then cs / raised else 0 }

/-- One donation row as seen by segment_donors_basic,
src/core/utils.py lines 112-123: only donor_id and date matter. Dates are
modelled as integers (any totally ordered timestamp representation). -/
structure Donation where
  donor_id : String
  date : ℤ
deriving DecidableEq

/-- Row order used by the sort_values call of src/core/utils.py line 120:
lexicographic on (donor_id, date). -/
def donLE (a b : Donation) : Bool :=
  match compare a.donor_id b.donor_id with
  | .lt => true
  | .eq => decide (a.date ≤ b.date)
  | .gt => false

/-- Insertion step of the stable sort modelling sort_values. -/
def insertSorted (x : Donation) : List Donation → List Donation
  | [] => [x]
  | y :: ys => if donLE x y then x :: y :: ys else y :: insertSorted x ys

/-- Stable insertion sort modelling the sort_values call of
src/core/utils.py line 120. -/
def sortDonations : List Donation → List Donation
  | [] => []
  | x :: xs => insertSorted x (sortDonations xs)

/-- Minimum date within one donor group; embeds the groupby
transform min of src/core/utils.py line 121. The seed is the date of the row
the label is computed for; that row belongs to its own group, so seeding the
fold with it leaves the group minimum unchanged. -/
def groupMinDate (rows : List Donation) (donor : String) (seed : ℤ) : ℤ :=
  ((rows.filter fun q => q.donor_id == donor).map fun q => q.date).foldr min seed

/-- Embeds segment_donors_basic, src/core/utils.py lines 112-123: sort by
(donor_id, date), compute each donor group minimum date, and label a row New
exactly when its date equals that minimum, Returning otherwise. The output
pairs each row with its donor_segment column value. -/
def segment_donors_basic (d : List Donation) : List (Donation × String) :=
  let s := sortDonations d
  s.map fun r =>
    (r, if r.date = groupMinDate s r.donor_id r.date then "New" else "Returning")

/-! Helper lemmas shared by several claims. -/

/-- The literal method prior is already normalized. -/
lemma normalizeMethod_prior : normalizeMethod "prior" = "prior" := by decide

/-- The literal method remaining is already normalized. -/
lemma normalizeMethod_remaining : normalizeMethod "remaining" = "remaining" := by
  decide

/-- The two method literals differ, resolving the branch of
build_revenue_series for the prior method. -/
lemma prior_ne_remaining : (("prior" : String) = "remaining") = False := by decide

/-- C5: with method REMAINING the revenue series is the year-1 value followed
by two exact zeros, for every year-1 value, retention and shock. -/
theorem remaining_method_zero_years (y1 r s : ℚ) :
    build_revenue_series y1 r "remaining" s = [y1, 0, 0] := by
  simp [build_revenue_series, normalizeMethod_remaining]

/-- C6: with method PRIOR the revenue series is
[y1, r * y1 * (1 + s), r ^ 2 * y1 * (1 + s)]: year 1 passes through
unshocked and years 2 and 3 each carry the shock factor once; in particular
retention 0.6, y1 = 250000, no shock gives years 2 and 3 of 150000 and
90000. -/
theorem prior_method_series (y1 r s : ℚ) (h : 0 ≤ y1) :
    build_revenue_series y1 r "prior" s
        = [y1, r * y1 * (1 + s), r ^ 2 * y1 * (1 + s)] ∧
    build_revenue_series 250000 (6 / 10) "prior" 0 = [250000, 150000, 90000] := by
  refine ⟨?_, ?_⟩
  · simp [build_revenue_series, normalizeMethod_prior, prior_ne_remaining]
    constructor <;> ring
  · norm_num [build_revenue_series, normalizeMethod_prior, prior_ne_remaining]

/-- Witness for prior_method_series at y1 = 250000, r = 0.6, s = 0. -/
theorem prior_method_series_witness :
    build_revenue_series 250000 (6 / 10) "prior" 0
      = [250000, (6 / 10) * 250000 * (1 + 0), (6 / 10) ^ 2 * 250000 * (1 + 0)] :=
  (prior_method_series 250000 (6 / 10) 0 (by norm_num)).1

/-- C7: with the year1-only flag set and no cost shock the cost series is
[b * (1 + m), b * m * (1 + g), b * m * (1 + g) ^ 2]: years 2 and 3 compound
off the stewardship base b * m; in particular base 150000, margin 0.2,
growth 0.05 gives [180000, 31500, 33075]. -/
theorem cost_series_year1_only (b m g : ℚ) :
    build_cost_series b m g 0 true
        = [b * (1 + m), b * m * (1 + g), b * m * (1 + g) ^ 2] ∧
    build_cost_series 150000 (1 / 5) (1 / 20) 0 true = [180000, 31500, 33075] := by
  refine ⟨?_, ?_⟩
  · simp [build_cost_series]
  · norm_num [build_cost_series]

/-- C1 counterexample: the claim predicts year-1 cost
base * (1 + margin) * (1 + cost_shock); at base 100, margin 0, cost shock 1
that is 200, but the code leaves year 1 unshocked at 100. -/
theorem cost_shock_year1_counterexample :
    (build_cost_series 100 0 0 1 true).headI ≠ 100 * (1 + 0) * (1 + 1) := by
  norm_num [build_cost_series]

/-- C1 amended: the cost shock multiplies years 2 and 3 only; year 1 equals
base * (1 + margin) with no shock, under both cost policies. -/
theorem cost_shock_applies_to_later_years_only (b m g s : ℚ) (y1only : Bool) :
    build_cost_series b m g s y1only =
      [b * (1 + m),
       (if y1only then b * m * (1 + g) else b * (1 + m) * (1 + g)) * (1 + s),
       (if y1only then b * m * (1 + g) ^ 2 else b * (1 + m) * (1 + g) * (1 + g))
         * (1 + s)] := by
  cases y1only <;> simp [build_cost_series]

/-- Membership characterization of the recommendation list: a string is
produced exactly when it is the tier message selected by the 3-year ROI
multiple, or the remaining-method note when that method is selected. -/
lemma mem_recommendationsOf (inputs : MacroInputs) (k : Kpis) (r : String) :
    r ∈ recommendationsOf inputs k ↔
      (r = recBelowBreakeven ∧ k.roiMultiple < 1) ∨
      (r = recModerate ∧ 1 ≤ k.roiMultiple ∧ k.roiMultiple < 2) ∨
      (r = recStrong ∧ 2 ≤ k.roiMultiple) ∨
      (r = recRemainingNote ∧ inputs.revenue_method = "remaining") := by
  unfold recommendationsOf
  rcases lt_or_le k.roiMultiple 1 with h1 | h1
  · have h2 : k.roiMultiple < 2 := by linarith
    by_cases hm : inputs.revenue_method = "remaining" <;>
      simp [h1, h2, hm, not_le.mpr h1, not_le.mpr h2] <;>
      tauto
  · rcases lt_or_le k.roiMultiple 2 with h2 | h2
    · by_cases hm : inputs.revenue_method = "remaining" <;>
        simp [h2, hm, not_lt.mpr h1, h1, not_le.mpr h2] <;>
        tauto
    · have h1' : ¬k.roiMultiple < 1 := not_lt.mpr (by linarith)
      by_cases hm : inputs.revenue_method = "remaining" <;>
        simp [hm, h1', not_lt.mpr h2, h2] <;>
        tauto

/-- C4: exactly one ROI-tier recommendation is produced: the below-breakeven
warning fires iff the 3-year ROI multiple is below 1, the moderate note iff
it lies in [1, 2), the strong note iff it is at least 2; the final count
conjunct states that exactly one of the three tier messages occurs, which
entails their pairwise mutual exclusivity. -/
theorem roi_tier_recommendation_exclusive (inputs : MacroInputs)
    (budget : Option (List BudgetRow)) :
    (recBelowBreakeven ∈ (build_macro_forecast inputs budget).recommendations ↔
        (build_macro_forecast inputs budget).kpis.roiMultiple < 1) ∧
    (recModerate ∈ (build_macro_forecast inputs budget).recommendations ↔
        1 ≤ (build_macro_forecast inputs budget).kpis.roiMultiple ∧
          (build_macro_forecast inputs budget).kpis.roiMultiple < 2) ∧
    (recStrong ∈ (build_macro_forecast inputs budget).recommendations ↔
        2 ≤ (build_macro_forecast inputs budget).kpis.roiMultiple) ∧
    (build_macro_forecast inputs budget).recommendations.count recBelowBreakeven
      + (build_macro_forecast inputs budget).recommendations.count recModerate
      + (build_macro_forecast inputs budget).recommendations.count recStrong
      = 1 := by
  have d12 : (recBelowBreakeven = recModerate) = False := by decide
  have d13 : (recBelowBreakeven = recStrong) = False := by decide
  have d14 : (recBelowBreakeven = recRemainingNote) = False := by decide
  have d21 : (recModerate = recBelowBreakeven) = False := by decide
  have d23 : (recModerate = recStrong) = False := by decide
  have d24 : (recModerate = recRemainingNote) = False := by decide
  have d31 : (recStrong = recBelowBreakeven) = False := by decide
  have d32 : (recStrong = recModerate) = False := by decide
  have d34 : (recStrong = recRemainingNote) = False := by decide
  have h1 : recBelowBreakeven ∈ (build_macro_forecast inputs budget).recommendations ↔
      (build_macro_forecast inputs budget).kpis.roiMultiple < 1 :=
    (mem_recommendationsOf inputs (kpisOf (forecastRows inputs))
      recBelowBreakeven).trans (by simp [d12, d13, d14]; exact Iff.rfl)
  have h2 : recModerate ∈ (build_macro_forecast inputs budget).recommendations ↔
      1 ≤ (build_macro_forecast inputs budget).kpis.roiMultiple ∧
        (build_macro_forecast inputs budget).kpis.roiMultiple < 2 :=
    (mem_recommendationsOf inputs (kpisOf (forecastRows inputs))
      recModerate).trans (by simp [d21, d23, d24]; exact Iff.rfl)
  have h3 : recStrong ∈ (build_macro_forecast inputs budget).recommendations ↔
      2 ≤ (build_macro_forecast inputs budget).kpis.roiMultiple :=
    (mem_recommendationsOf inputs (kpisOf (forecastRows inputs))
      recStrong).trans (by simp [d31, d32, d34]; exact Iff.rfl)
  refine ⟨h1, h2, h3, ?_⟩
  show (recommendationsOf inputs (kpisOf (forecastRows inputs))).count
      recBelowBreakeven
    + (recommendationsOf inputs (kpisOf (forecastRows inputs))).count
      recModerate
    + (recommendationsOf inputs (kpisOf (forecastRows inputs))).count
      recStrong = 1
  unfold recommendationsOf
  split_ifs <;>
    simp [List.count_cons, List.count_append, d12, d13, d21, d23, d31, d32,
      d14, d24, d34]

/-- C3 counterexample: at total raised 1000, base cost 1, retention 0.1,
method prior, revenue shock -0.2, margin 0.2, cost growth 0.5, no cost
shock, year1-only true, all three trigger conditions of the claim hold
(retention below 0.55, cost growth above 0.10, negative revenue shock), yet
the recommendation list is exactly the single strong-ROI tier message: the
code produces no low-retention, high-cost-growth or contingency advisory. -/
theorem no_assumption_advisories_counterexample :
    (build_macro_forecast
        ⟨1000, 1, 1 / 10, "prior", -(1 / 5), 1 / 5, 1 / 2, 0, true⟩
        none).recommendations = [recStrong] ∧
    (1 / 10 : ℚ) < 55 / 100 ∧ (1 / 10 : ℚ) < 1 / 2 ∧ -(1 / 5) < (0 : ℚ) := by
  refine ⟨?_, by norm_num, by norm_num, by norm_num⟩
  norm_num [build_macro_forecast, recommendationsOf, kpisOf, forecastRows,
    macroYears, build_revenue_series, build_cost_series, normalizeMethod_prior,
    prior_ne_remaining, safe_div]

/-- C3 amended: build_macro_forecast emits no advisory conditioned on
retention, cost growth or revenue shock: its recommendation list consists of
exactly one ROI-tier message, plus the remaining-method note exactly when
revenue_method is the literal string remaining, so its length is 2 in that
case and 1 otherwise and every element is one of the four fixed messages. -/
theorem recommendations_tier_and_remaining_only (inputs : MacroInputs)
    (budget : Option (List BudgetRow)) :
    (∀ r ∈ (build_macro_forecast inputs budget).recommendations,
        r = recBelowBreakeven ∨ r = recModerate ∨ r = recStrong ∨
          r = recRemainingNote) ∧
    (build_macro_forecast inputs budget).recommendations.length =
      (if inputs.revenue_method = "remaining" then 2 else 1) := by
  constructor
  · intro r hr
    have hr' := (mem_recommendationsOf inputs
      (kpisOf (forecastRows inputs)) r).mp hr
    tauto
  · show (recommendationsOf inputs (kpisOf (forecastRows inputs))).length = _
    unfold recommendationsOf
    split_ifs <;> simp

/-- Witness for recommendations_tier_and_remaining_only: the strong-ROI
message emitted at a concrete input is one of the four fixed messages. -/
theorem recommendations_tier_and_remaining_only_witness :
    (recStrong = recBelowBreakeven ∨ recStrong = recModerate ∨
      recStrong = recStrong ∨ recStrong = recRemainingNote) ∧
    (build_macro_forecast
        ⟨1000, 1, 6 / 10, "prior", 0, 1 / 5, 1 / 20, 0, true⟩
        none).recommendations.length =
      (if ("prior" : String) = "remaining" then 2 else 1) := by
  refine ⟨(recommendations_tier_and_remaining_only
      ⟨1000, 1, 6 / 10, "prior", 0, 1 / 5, 1 / 20, 0, true⟩ none).1 recStrong ?_,
    (recommendations_tier_and_remaining_only
      ⟨1000, 1, 6 / 10, "prior", 0, 1 / 5, 1 / 20, 0, true⟩ none).2⟩
  norm_num [build_macro_forecast, recommendationsOf, kpisOf, forecastRows,
    macroYears, build_revenue_series, build_cost_series, normalizeMethod_prior,
    prior_ne_remaining, safe_div]

/-- C8: every zero-denominator ratio in the assembled forecast resolves to
exactly 0: per-row ROI multiple when the row cost is 0, the 3-year ROI
multiple when total cost is 0, and cost per dollar when total revenue
is 0. -/
theorem safe_ratios_zero_on_zero_denominator (inputs : MacroInputs)
    (budget : Option (List BudgetRow)) :
    (∀ row ∈ (build_macro_forecast inputs budget).forecast,
        row.cost = 0 → row.roiMultiple = 0) ∧
    ((build_macro_forecast inputs budget).kpis.totalCost = 0 →
        (build_macro_forecast inputs budget).kpis.roiMultiple = 0) ∧
    ((build_macro_forecast inputs budget).kpis.totalRevenue = 0 →
        (build_macro_forecast inputs budget).kpis.costPerDollar = 0) := by
  refine ⟨?_, ?_, ?_⟩
  · intro row hrow hcost
    have hrow' : row ∈ forecastRows inputs := hrow
    rw [forecastRows, List.mem_map] at hrow'
    obtain ⟨yc, hyc, hrw⟩ := hrow'
    subst hrw
    simp only at hcost
    simp [safe_div, hcost]
  · intro h
    have h' : (kpisOf (forecastRows inputs)).totalCost = 0 := h
    show safe_div (kpisOf (forecastRows inputs)).totalRevenue
      (kpisOf (forecastRows inputs)).totalCost = 0
    rw [h']
    simp [safe_div]
  · intro h
    have h' : (kpisOf (forecastRows inputs)).totalRevenue = 0 := h
    show safe_div (kpisOf (forecastRows inputs)).totalCost
      (kpisOf (forecastRows inputs)).totalRevenue = 0
    rw [h']
    simp [safe_div]

/-- Witness for safe_ratios_zero_on_zero_denominator at all-zero inputs: the
first forecast row has cost 0 and ROI multiple 0, the total cost is 0 with
3-year ROI multiple 0, and the total revenue is 0 with cost per dollar 0. -/
theorem safe_ratios_zero_on_zero_denominator_witness :
    ((⟨"Year 1", 0, 0, 0, 0, 0 - 1⟩ : ForecastRow) ∈
        (build_macro_forecast ⟨0, 0, 0, "prior", 0, 0, 0, 0, true⟩ none).forecast) ∧
    (⟨"Year 1", 0, 0, 0, 0, 0 - 1⟩ : ForecastRow).roiMultiple = 0 ∧
    (build_macro_forecast ⟨0, 0, 0, "prior", 0, 0, 0, 0, true⟩
        none).kpis.roiMultiple = 0 ∧
    (build_macro_forecast ⟨0, 0, 0, "prior", 0, 0, 0, 0, true⟩
        none).kpis.costPerDollar = 0 := by
  have hmem : (⟨"Year 1", 0, 0, 0, 0, 0 - 1⟩ : ForecastRow) ∈
      (build_macro_forecast ⟨0, 0, 0, "prior", 0, 0, 0, 0, true⟩ none).forecast := by
    show _ ∈ forecastRows _
    norm_num [forecastRows, macroYears, build_revenue_series, build_cost_series,
      normalizeMethod_prior, prior_ne_remaining, safe_div]
  refine ⟨hmem,
    (safe_ratios_zero_on_zero_denominator
        ⟨0, 0, 0, "prior", 0, 0, 0, 0, true⟩ none).1 _ hmem rfl,
    (safe_ratios_zero_on_zero_denominator
        ⟨0, 0, 0, "prior", 0, 0, 0, 0, true⟩ none).2.1 ?_,
    (safe_ratios_zero_on_zero_denominator
        ⟨0, 0, 0, "prior", 0, 0, 0, 0, true⟩ none).2.2 ?_⟩
  · show (kpisOf (forecastRows _)).totalCost = 0
    norm_num [kpisOf, forecastRows, macroYears, build_revenue_series,
      build_cost_series, normalizeMethod_prior, prior_ne_remaining, safe_div]
  · show (kpisOf (forecastRows _)).totalRevenue = 0
    norm_num [kpisOf, forecastRows, macroYears, build_revenue_series,
      build_cost_series, normalizeMethod_prior, prior_ne_remaining, safe_div]

/-- When no budget year matches any forecast year, the left merge keeps
every budget row and fills the forecast columns with 0. -/
lemma budgetCompare_no_match (b : List BudgetRow) (rows : List ForecastRow)
    (hmiss : ∀ br ∈ b, ∀ fr ∈ rows, br.year ≠ fr.year) :
    budgetCompare b rows = b.map fun br => budgetCompareRow br 0 0 0 := by
  induction b with
  | nil => simp [budgetCompare]
  | cons br bs ih =>
    have hfil : rows.filter (fun fr => fr.year == br.year) = [] := by
      refine List.filter_eq_nil_iff.mpr fun fr hfr => ?_
      simp only [beq_iff_eq]
      exact fun hy => hmiss br (by simp) fr hfr hy.symm
    have ih' := ih fun q hq fr hfr => hmiss q (by simp [hq]) fr hfr
    simp only [budgetCompare, List.flatMap_cons] at ih' ⊢
    rw [hfil]
    simp only [ih']
    simp

/-- Every row of the forecast table carries one of the three fixed year
labels. -/
lemma forecastRows_year_mem (inputs : MacroInputs) :
    ∀ fr ∈ forecastRows inputs, fr.year ∈ macroYears := by
  intro fr hfr
  rw [forecastRows, List.mem_map] at hfr
  obtain ⟨⟨y, rc⟩, hyc, hrw⟩ := hfr
  subst hrw
  exact (List.mem_zip hyc).1

/-- C2 counterexample: with a nonempty, column-resolved budget table whose
single Year label FY1 matches no forecast year, build_macro_forecast returns
a budget comparison with one variance row, not an empty or null result. -/
theorem budget_mismatch_nonempty_counterexample :
    (((build_macro_forecast ⟨0, 0, 0, "prior", 0, 0, 0, 0, true⟩
        (some [⟨"FY1", 10, 5⟩])).budget).getD []).length = 1 := by
  have hmiss : ∀ br ∈ [(⟨"FY1", 10, 5⟩ : BudgetRow)],
      ∀ fr ∈ forecastRows ⟨0, 0, 0, "prior", 0, 0, 0, 0, true⟩,
        br.year ≠ fr.year := by
    intro br hbr fr hfr
    simp only [List.mem_singleton] at hbr
    subst hbr
    have hy := forecastRows_year_mem _ fr hfr
    intro h
    rw [← h] at hy
    simp [macroYears] at hy
  have h := budgetCompare_no_match [⟨"FY1", 10, 5⟩]
    (forecastRows ⟨0, 0, 0, "prior", 0, 0, 0, 0, true⟩) hmiss
  show ((if ([(⟨"FY1", 10, 5⟩ : BudgetRow)] = []) then none
      else some (budgetCompare [⟨"FY1", 10, 5⟩]
        (forecastRows ⟨0, 0, 0, "prior", 0, 0, 0, 0, true⟩))).getD []).length = 1
  rw [if_neg (by simp), h]
  simp

/-- C2 amended: with a nonempty budget table whose resolvable Year labels
match no forecast year, build_macro_forecast does not fail and returns a
budget comparison containing one row per budget row, with the forecast
Revenue, Cost and Net columns filled as 0, so each variance equals the
negated budget figure. -/
theorem budget_mismatch_left_join_rows (inputs : MacroInputs)
    (b : List BudgetRow) (hne : b ≠ [])
    (hmiss : ∀ br ∈ b, ∀ fr ∈ forecastRows inputs, br.year ≠ fr.year) :
    (build_macro_forecast inputs (some b)).budget =
      some (b.map fun br => budgetCompareRow br 0 0 0) := by
  show (if b = [] then none
    else some (budgetCompare b (forecastRows inputs))) = _
  rw [if_neg hne, budgetCompare_no_match b (forecastRows inputs) hmiss]

/-- Witness for budget_mismatch_left_join_rows at a one-row budget labelled
FY1 against the all-zero forecast. -/
theorem budget_mismatch_left_join_rows_witness :
    ([(⟨"FY1", 10, 5⟩ : BudgetRow)] ≠ []) ∧
    (build_macro_forecast ⟨0, 0, 0, "prior", 0, 0, 0, 0, true⟩
        (some [⟨"FY1", 10, 5⟩])).budget =
      some ([(⟨"FY1", 10, 5⟩ : BudgetRow)].map fun br =>
        budgetCompareRow br 0 0 0) := by
  refine ⟨by simp, budget_mismatch_left_join_rows _ _ (by simp) ?_⟩
  intro br hbr fr hfr
  simp only [List.mem_singleton] at hbr
  subst hbr
  have hy := forecastRows_year_mem _ fr hfr
  intro h
  rw [← h] at hy
  simp [macroYears] at hy

/-- A key absent from a table sums to 0 in its grouped column. -/
lemma sumBy_eq_zero_of_not_mem (rows : List (String × ℚ)) (k : String)
    (h : k ∉ rows.map Prod.fst) : sumBy rows k = 0 := by
  rw [sumBy]
  have hfil : rows.filter (fun r => r.1 == k) = [] := by
    refine List.filter_eq_nil_iff.mpr fun r hr => ?_
    simp only [beq_iff_eq]
    exact fun he => h (he ▸ List.mem_map_of_mem Prod.fst hr)
  rw [hfil]
  simp

/-- C9: compute_rollups outer-joins the per-group sums: a dimension value
present only in donations appears in the output with costs 0 and roi 0, and
a value present only in costs appears with raised 0 and cost_to_raise_1
0. -/
theorem rollup_outer_join_zero_fill (donations costs : List (String × ℚ))
    (k : String) :
    (k ∈ donations.map Prod.fst → k ∉ costs.map Prod.fst →
      ∃ row ∈ compute_rollups donations costs,
        row.key = k ∧ row.costs = 0 ∧ row.roi = 0) ∧
    (k ∈ costs.map Prod.fst → k ∉ donations.map Prod.fst →
      ∃ row ∈ compute_rollups donations costs,
        row.key = k ∧ row.raised = 0 ∧ row.cost_to_raise_1 = 0) := by
  constructor
  · intro hd hc
    have hk : k ∈ ((donations.map Prod.fst) ++ (costs.map Prod.fst)).dedup := by
      rw [List.mem_dedup]
      exact List.mem_append_left _ hd
    have hz := sumBy_eq_zero_of_not_mem costs k hc
    refine ⟨_, List.mem_map_of_mem _ hk, rfl, hz, ?_⟩
    show (if sumBy costs k > 0
      then (sumBy donations k - sumBy costs k) / sumBy costs k else 0) = 0
    rw [if_neg (by rw [hz]; norm_num)]
  · intro hc hd
    have hk : k ∈ ((donations.map Prod.fst) ++ (costs.map Prod.fst)).dedup := by
      rw [List.mem_dedup]
      exact List.mem_append_right _ hc
    have hz := sumBy_eq_zero_of_not_mem donations k hd
    refine ⟨_, List.mem_map_of_mem _ hk, rfl, hz, ?_⟩
    show (if sumBy donations k > 0
      then sumBy costs k / sumBy donations k else 0) = 0
    rw [if_neg (by rw [hz]; norm_num)]

/-- Witness for rollup_outer_join_zero_fill with a donation under key camp
and a cost under the different key ch. -/
theorem rollup_outer_join_zero_fill_witness :
    (("camp" : String) ∈ ([("camp", (5 : ℚ))].map Prod.fst) ∧
      ("camp" : String) ∉ ([("ch", (2 : ℚ))].map Prod.fst)) ∧
    ∃ row ∈ compute_rollups [("camp", (5 : ℚ))] [("ch", (2 : ℚ))],
      row.key = "camp" ∧ row.costs = 0 ∧ row.roi = 0 :=
  ⟨⟨by simp, by simp⟩,
    (rollup_outer_join_zero_fill [("camp", (5 : ℚ))] [("ch", (2 : ℚ))]
      "camp").1 (by simp) (by simp)⟩

/-- Insertion into a list preserves membership up to the inserted element. -/
lemma mem_insertSorted {x a : Donation} :
    ∀ {l : List Donation}, a ∈ insertSorted x l ↔ a = x ∨ a ∈ l := by
  intro l
  induction l with
  | nil => simp [insertSorted]
  | cons y ys ih =>
    rw [insertSorted]
    split_ifs with h
    · simp
    · simp only [List.mem_cons, ih]
      tauto

/-- Sorting preserves membership. -/
lemma mem_sortDonations {a : Donation} :
    ∀ {l : List Donation}, a ∈ sortDonations l ↔ a ∈ l := by
  intro l
  induction l with
  | nil => simp [sortDonations]
  | cons x xs ih =>
    rw [sortDonations, mem_insertSorted]
    simp [ih]

/-- A fold by min is bounded by its seed. -/
lemma foldr_min_le_seed (l : List ℤ) (seed : ℤ) : l.foldr min seed ≤ seed := by
  induction l with
  | nil => simp
  | cons x xs ih =>
    simp only [List.foldr_cons]
    exact le_trans (min_le_right _ _) ih

/-- A fold by min is bounded by every list element. -/
lemma foldr_min_le_mem {l : List ℤ} {x : ℤ} (seed : ℤ) (hx : x ∈ l) :
    l.foldr min seed ≤ x := by
  induction l with
  | nil => cases hx
  | cons y ys ih =>
    simp only [List.foldr_cons]
    rcases List.mem_cons.mp hx with rfl | h
    · exact min_le_left _ _
    · exact le_trans (min_le_right _ _) (ih h)

/-- A fold by min returns its seed or a list element. -/
lemma foldr_min_eq_seed_or_mem (l : List ℤ) (seed : ℤ) :
    l.foldr min seed = seed ∨ l.foldr min seed ∈ l := by
  induction l with
  | nil => simp
  | cons y ys ih =>
    simp only [List.foldr_cons]
    rcases le_total y (ys.foldr min seed) with h | h
    · right
      rw [min_eq_left h]
      simp
    · rw [min_eq_right h]
      rcases ih with h2 | h2
      · left
        exact h2
      · right
        exact List.mem_cons_of_mem _ h2

/-- C10: donor segmentation labels a transaction New exactly when its date
equals the earliest date of that donor in the dataset: ties at the earliest
date are all New and every strictly later transaction from the donor is
Returning (the label is always one of the two). -/
theorem segmentation_new_iff_earliest (d : List Donation)
    (p : Donation × String) (hp : p ∈ segment_donors_basic d) :
    (p.2 = "New" ∨ p.2 = "Returning") ∧
    (p.2 = "New" ↔ ∀ s ∈ d, s.donor_id = p.1.donor_id →
      p.1.date ≤ s.date) := by
  have hp' : p ∈ (sortDonations d).map fun r =>
      (r, if r.date = groupMinDate (sortDonations d) r.donor_id r.date
        then "New" else "Returning") := hp
  rw [List.mem_map] at hp'
  obtain ⟨r, hr, hrw⟩ := hp'
  subst hrw
  have hNR : ¬(("Returning" : String) = "New") := by decide
  constructor
  · by_cases h : r.date = groupMinDate (sortDonations d) r.donor_id r.date
    · left
      show (if r.date = groupMinDate (sortDonations d) r.donor_id r.date
        then "New" else "Returning") = "New"
      rw [if_pos h]
    · right
      show (if r.date = groupMinDate (sortDonations d) r.donor_id r.date
        then "New" else "Returning") = "Returning"
      rw [if_neg h]
  · constructor
    · intro hNew s hs hsid
      have hcond : r.date = groupMinDate (sortDonations d) r.donor_id r.date := by
        by_contra hc
        rw [if_neg hc] at hNew
        exact hNR hNew
      have hsmem : s ∈ sortDonations d := mem_sortDonations.mpr hs
      have hdmem : s.date ∈ ((sortDonations d).filter
          fun q => q.donor_id == r.donor_id).map fun q => q.date := by
        refine List.mem_map_of_mem _ (List.mem_filter.mpr ⟨hsmem, ?_⟩)
        simp only [beq_iff_eq]
        exact hsid
      have hle := foldr_min_le_mem (l :=
        ((sortDonations d).filter fun q => q.donor_id == r.donor_id).map
          fun q => q.date) r.date hdmem
      show r.date ≤ s.date
      rw [hcond]
      exact hle
    · intro hLB
      have hub : groupMinDate (sortDonations d) r.donor_id r.date ≤ r.date :=
        foldr_min_le_seed _ _
      have hlb : r.date ≤ groupMinDate (sortDonations d) r.donor_id r.date := by
        rcases foldr_min_eq_seed_or_mem
            (((sortDonations d).filter fun q => q.donor_id == r.donor_id).map
              fun q => q.date) r.date with h | h
        · rw [groupMinDate, h]
        · rw [groupMinDate]
          rw [List.mem_map] at h
          obtain ⟨q, hq, hqd⟩ := h
          have hq' := List.mem_filter.mp hq
          have hqid : q.donor_id = r.donor_id := by
            have := hq'.2
            simpa [beq_iff_eq] using this
          have hqd' : q ∈ d := mem_sortDonations.mp hq'.1
          rw [← hqd]
          exact hLB q hqd' hqid
      have heq : r.date = groupMinDate (sortDonations d) r.donor_id r.date :=
        le_antisymm hlb hub
      rw [if_pos heq]

/-- Witness for segmentation_new_iff_earliest: in a dataset where donor A
gives twice on the tied earliest date 1 and once later on date 2, the date-2
transaction is labeled Returning and the iff characterization holds for
it. -/
theorem segmentation_new_iff_earliest_witness :
    ((⟨⟨"A", 2⟩, "Returning"⟩ : Donation × String) ∈
        segment_donors_basic [⟨"A", 2⟩, ⟨"A", 1⟩, ⟨"A", 1⟩, ⟨"B", 5⟩]) ∧
    (((⟨⟨"A", 2⟩, "Returning"⟩ : Donation × String).2 = "New" ∨
      (⟨⟨"A", 2⟩, "Returning"⟩ : Donation × String).2 = "Returning") ∧
    ((⟨⟨"A", 2⟩, "Returning"⟩ : Donation × String).2 = "New" ↔
      ∀ s ∈ [(⟨"A", 2⟩ : Donation), ⟨"A", 1⟩, ⟨"A", 1⟩, ⟨"B", 5⟩],
        s.donor_id = (⟨⟨"A", 2⟩, "Returning"⟩ : Donation × String).1.donor_id →
        (⟨⟨"A", 2⟩, "Returning"⟩ : Donation × String).1.date ≤ s.date)) :=
  ⟨by decide, segmentation_new_iff_earliest
    [⟨"A", 2⟩, ⟨"A", 1⟩, ⟨"A", 1⟩, ⟨"B", 5⟩] ⟨⟨"A", 2⟩, "Returning"⟩
    (by decide)⟩

end BJC
